import Mathlib

/-!
# MouseFlip (`primary.cpp`): auto-switch decision engine

A shallow embedding of the tray utility's decision logic.  The Win32 calls the
program makes are modelled by their effect on an explicit `World` value: the
raw-input device list, the two registry keys the program touches, the
system-wide button-swap flag, the notification-area icon, the window timers
and the program's own globals.  Every call with an externally visible effect
is also appended to `World.log`, so that "which calls were issued" is a
statement about a list.

Machine integers: `int` is `Int` restricted to 32 bits by `toInt`, `DWORD` is
`Nat` reduced modulo `2^32` by `toDWORD`; registry data are byte lists in
little-endian order.
-/

namespace Primary

/-! ## Constants (`resource.h` and the Win32 headers) -/

/-- Window handle; `0` is `NULL`. -/
abbrev HWND := Nat

def IDI_ICON_RIGHT : Nat := 101
def IDI_ICON_LEFT : Nat := 102
def TIMER_AUTOSWITCH : Nat := 1
def IDOK : Nat := 1
def IDCANCEL : Nat := 2
def REG_SZ : Nat := 1
def REG_DWORD : Nat := 4
def RIM_TYPEMOUSE : Nat := 0
def MAX_PATH : Nat := 260
def NIM_ADD : Nat := 0
def NIM_MODIFY : Nat := 1
def NIM_DELETE : Nat := 2
/-- The value `(UINT)-1`. -/
def UINT_ERROR : Nat := 2 ^ 32 - 1

/-! ## Data model -/

/-- Spec entity Handedness; the source represents it as the `bool` returned by
`GetCurrentMouseState` (`true` = buttons swapped = left-handed). -/
inductive Handedness
  | RightHanded
  | LeftHanded
deriving DecidableEq, Repr

/-- Status codes of the registry API that the program distinguishes. -/
inductive LSTATUS
  | ERROR_SUCCESS
  | ERROR_FILE_NOT_FOUND
  | ERROR_MORE_DATA
  | ERROR_ACCESS_DENIED
deriving DecidableEq, Repr

/-- A registry value: its type tag and its raw bytes. -/
structure RegValue where
  dwType : Nat
  data : List Nat
deriving DecidableEq, Repr

/-- Names of the registry values the program reads or writes. -/
inductive ValueName
  | REGISTRY_VALUE
  | AUTOSWITCH_VALUE
  | BASE_MOUSE_COUNT_VALUE
deriving DecidableEq, Repr

/-- Content of `HKCU\Software\MouseFlip` (`SETTINGS_REGISTRY_KEY`). -/
structure SettingsKey where
  autoSwitch : Option RegValue
  baseMouseCount : Option RegValue
deriving DecidableEq, Repr

/-- Content of `HKCU\...\CurrentVersion\Run` (`REGISTRY_KEY`) as far as the
program looks at it: the value named after the application. -/
structure RunKey where
  appValue : Option RegValue
deriving DecidableEq, Repr

/-- One entry of the raw-input device list. -/
structure RAWINPUTDEVICELIST where
  hDevice : Nat
  dwType : Nat
deriving DecidableEq, Repr, Inhabited

/-- The fields of the global `g_nid` that the program changes after start. -/
structure NOTIFYICONDATA where
  hWnd : HWND
  hIcon : Nat
deriving DecidableEq, Repr

/-- Texts of the message boxes the program can show. -/
inductive Message
  | WindowRegistrationFailed
  | WindowCreationFailed
  | InvalidBaseCount
  | StartupUpdateFailed
  | AutoSwitchUpdateFailed
  | BaseCountUpdateFailed
deriving DecidableEq, Repr

/-- Externally visible calls, in the order they are issued. -/
inductive Event
  | SwapMouseButton (fSwap : Bool)
  | Shell_NotifyIcon (dwMessage : Nat) (nid : NOTIFYICONDATA)
  | SetTimer (hwnd : HWND) (id : Nat) (elapse : Nat)
  | KillTimer (hwnd : HWND) (id : Nat)
  | MessageBox (text : Message)
  | EndDialog (result : Nat)
  | RegCreateKeyEx
  | RegSetValueEx (name : ValueName) (value : RegValue)
  | RegDeleteValue (name : ValueName)
  | PostQuitMessage (code : Nat)
deriving DecidableEq, Repr

/-- Everything the modelled code reads or writes. -/
structure World where
  /-- Raw-input devices currently attached. -/
  devices : List RAWINPUTDEVICELIST
  /-- `GetRawInputDeviceList(NULL, ..)` reports an error. -/
  sizeQueryFails : Bool
  /-- `GetRawInputDeviceList(deviceList, ..)` reports an error. -/
  listQueryFails : Bool
  /-- The settings key, `none` when it does not exist. -/
  settingsKey : Option SettingsKey
  /-- The Run key, `none` when it does not exist. -/
  runKey : Option RunKey
  /-- Opening the settings key with `KEY_READ` is permitted. -/
  settingsReadable : Bool
  /-- `RegCreateKeyEx` on the settings key with `KEY_WRITE` is permitted. -/
  settingsCreatable : Bool
  /-- `RegSetValueEx` under the settings key is permitted. -/
  settingsValueWritable : Bool
  /-- Opening the Run key with `KEY_READ` is permitted. -/
  runKeyReadable : Bool
  /-- Opening the Run key with `KEY_WRITE` is permitted. -/
  runKeyWritable : Bool
  /-- `RegSetValueEx` and `RegDeleteValue` under the Run key are permitted. -/
  runValueWritable : Bool
  /-- Wide characters of the module file name, without the terminator. -/
  exePath : List Nat
  /-- The system metric `SM_SWAPBUTTON`. -/
  swapButton : Bool
  /-- Icon resource shown in the notification area, `none` when no icon. -/
  trayIcon : Option Nat
  /-- Active window timers as (window, id, interval). -/
  timers : List (HWND × Nat × Nat)
  g_nid : NOTIFYICONDATA
  g_hwndMain : HWND
  g_lastDisplayState : Bool
  log : List Event
deriving DecidableEq, Repr

/-! ## Machine integers and registry bytes -/

/-- Conversion `(int)value` of a 32-bit unsigned value (two's complement). -/
def toInt (v : Nat) : Int :=
  if v % 2 ^ 32 < 2 ^ 31 then ((v % 2 ^ 32 : Nat) : Int)
  else ((v % 2 ^ 32 : Nat) : Int) - 2 ^ 32

/-- Conversion `(DWORD)count` of an `int`. -/
def toDWORD (i : Int) : Nat := (i % 2 ^ 32).toNat

/-- The four bytes of a `DWORD` in memory. -/
def dwordBytes (v : Nat) : List Nat :=
  [v % 256, v / 256 % 256, v / 65536 % 256, v / 16777216 % 256]

/-- The `DWORD` held by a four-byte buffer. -/
def dwordOfBytes (b : List Nat) : Nat :=
  b.getD 0 0 % 256 + 256 * (b.getD 1 0 % 256) + 65536 * (b.getD 2 0 % 256)
    + 16777216 * (b.getD 3 0 % 256)

/-- `RegQueryValueEx(hKey, name, NULL, &type, buffer, &size)` on a stored value:
status, type tag and the buffer after the call.  Data longer than the buffer
are not copied. -/
def RegQueryValueEx (v : Option RegValue) (buffer : List Nat) : LSTATUS × Nat × List Nat :=
  match v with
  | none => (LSTATUS.ERROR_FILE_NOT_FOUND, 0, buffer)
  | some rv =>
    if rv.data.length > buffer.length then (LSTATUS.ERROR_MORE_DATA, rv.dwType, buffer)
    else (LSTATUS.ERROR_SUCCESS, rv.dwType, rv.data ++ buffer.drop rv.data.length)

/-- `RegOpenKeyEx(HKEY_CURRENT_USER, SETTINGS_REGISTRY_KEY, 0, KEY_READ, &hKey)`:
the key content on success. -/
def RegOpenKeyEx_settings_read (w : World) : Option SettingsKey :=
  if w.settingsReadable then w.settingsKey else none

/-! ## Handedness controller -/

/-- Source `GetCurrentMouseState`: `GetSystemMetrics(SM_SWAPBUTTON) != 0`. -/
def GetCurrentMouseState (w : World) : Bool := w.swapButton

/-- The spec's reading of the swap flag. -/
def currentHandedness (w : World) : Handedness :=
  if GetCurrentMouseState w then Handedness.LeftHanded else Handedness.RightHanded

/-- Win32 `SwapMouseButton`. -/
def SwapMouseButton (w : World) (fSwap : Bool) : World :=
  { w with swapButton := fSwap, log := w.log ++ [Event.SwapMouseButton fSwap] }

/-- Source `FlipMouseOrientation`. -/
def FlipMouseOrientation (w : World) : World :=
  let currentState := GetCurrentMouseState w
  SwapMouseButton w (!currentState)

/-- Source `GetIconForCurrentState`. -/
def GetIconForCurrentState (w : World) : Nat :=
  if GetCurrentMouseState w then IDI_ICON_LEFT else IDI_ICON_RIGHT

/-! ## Notification-area icon -/

/-- Win32 `Shell_NotifyIcon(dwMessage, &g_nid)`. -/
def Shell_NotifyIcon (w : World) (dwMessage : Nat) : World :=
  let shown : Option Nat :=
    if dwMessage = NIM_ADD then (if w.trayIcon.isNone then some w.g_nid.hIcon else w.trayIcon)
    else if dwMessage = NIM_MODIFY then (if w.trayIcon.isSome then some w.g_nid.hIcon else none)
    else if dwMessage = NIM_DELETE then none
    else w.trayIcon
  { w with trayIcon := shown, log := w.log ++ [Event.Shell_NotifyIcon dwMessage w.g_nid] }

/-- Source `AddTrayIcon`. -/
def AddTrayIcon (w : World) (hwnd : HWND) (iconID : Nat) : World :=
  Shell_NotifyIcon { w with g_nid := { hWnd := hwnd, hIcon := iconID } } NIM_ADD

/-- Source `UpdateTrayIcon`; the window argument is not used by the body. -/
def UpdateTrayIcon (w : World) (_hwnd : HWND) (iconID : Nat) : World :=
  Shell_NotifyIcon { w with g_nid := { w.g_nid with hIcon := iconID } } NIM_MODIFY

/-- Source `RemoveTrayIcon`. -/
def RemoveTrayIcon (w : World) (_hwnd : HWND) : World :=
  Shell_NotifyIcon w NIM_DELETE

/-! ## Device counter -/

/-- First call `GetRawInputDeviceList(NULL, &numDevices, ..)`: return value and
`numDevices` afterwards (which starts at 0). -/
def GetRawInputDeviceList_size (w : World) : Nat × Nat :=
  if w.sizeQueryFails then (UINT_ERROR, 0) else (0, w.devices.length)

/-- Second call `GetRawInputDeviceList(deviceList, &numDevices, ..)` into a
buffer of `numDevices` entries: return value and the buffer afterwards.  The
set of attached devices is the one the first call saw (both calls happen in
one event-processing turn). -/
def GetRawInputDeviceList_fill (w : World) (numDevices : Nat) :
    Nat × List RAWINPUTDEVICELIST :=
  if w.listQueryFails ∨ numDevices < w.devices.length then (UINT_ERROR, [])
  else (w.devices.length, w.devices)

/-- The counting loop `for (UINT i = 0; i < numDevices; i++)` of
`GetCurrentMouseDeviceCount`. -/
def countMouseLoop (deviceList : List RAWINPUTDEVICELIST) (numDevices : Nat) : Int :=
  (List.range numDevices).foldl
    (fun mouseCount i =>
      if (deviceList.getD i default).dwType = RIM_TYPEMOUSE then mouseCount + 1
      else mouseCount)
    0

/-- Source `GetCurrentMouseDeviceCount`. -/
def GetCurrentMouseDeviceCount (w : World) : Int :=
  let (r1, numDevices) := GetRawInputDeviceList_size w
  if r1 ≠ 0 then 0
  else if numDevices = 0 then 0
  else
    let (r2, deviceList) := GetRawInputDeviceList_fill w numDevices
    if r2 = UINT_ERROR then 0
    else countMouseLoop deviceList numDevices

/-! ## Settings store -/

/-- Source `IsAutoSwitchEnabled`. -/
def IsAutoSwitchEnabled (w : World) : Bool :=
  match RegOpenKeyEx_settings_read w with
  | some key =>
    let (status, type, buffer) := RegQueryValueEx key.autoSwitch (dwordBytes 1)
    let value := dwordOfBytes buffer
    if status = LSTATUS.ERROR_SUCCESS then
      if type = REG_DWORD then decide (value ≠ 0) else true
    else true
  | none => true

/-- Source `GetBaseMouseCount`. -/
def GetBaseMouseCount (w : World) : Int :=
  match RegOpenKeyEx_settings_read w with
  | some key =>
    let (status, type, buffer) := RegQueryValueEx key.baseMouseCount (dwordBytes 1)
    let value := dwordOfBytes buffer
    if status = LSTATUS.ERROR_SUCCESS then
      if type = REG_DWORD ∧ value > 0 then toInt value else 1
    else 1
  | none => 1

/-- `RegCreateKeyEx(HKEY_CURRENT_USER, SETTINGS_REGISTRY_KEY, .., KEY_WRITE, ..)`:
the world afterwards and whether the call succeeded.  A missing key is created
empty. -/
def RegCreateKeyEx_settings (w : World) : World × Bool :=
  let w1 := { w with log := w.log ++ [Event.RegCreateKeyEx] }
  if w.settingsCreatable then
    match w.settingsKey with
    | some _ => (w1, true)
    | none => ({ w1 with settingsKey := some { autoSwitch := none, baseMouseCount := none } }, true)
  else (w1, false)

/-- `RegSetValueEx` of a `REG_DWORD` under the opened settings key. -/
def RegSetValueEx_settings (w : World) (name : ValueName) (value : Nat) : World × Bool :=
  let rv : RegValue := { dwType := REG_DWORD, data := dwordBytes value }
  let w1 := { w with log := w.log ++ [Event.RegSetValueEx name rv] }
  if w.settingsValueWritable then
    match w.settingsKey, name with
    | some key, ValueName.AUTOSWITCH_VALUE =>
      ({ w1 with settingsKey := some { key with autoSwitch := some rv } }, true)
    | some key, ValueName.BASE_MOUSE_COUNT_VALUE =>
      ({ w1 with settingsKey := some { key with baseMouseCount := some rv } }, true)
    | _, _ => (w1, false)
  else (w1, false)

/-- Source `SetAutoSwitchEnabled`. -/
def SetAutoSwitchEnabled (w : World) (enable : Bool) : World × Bool :=
  let (w1, created) := RegCreateKeyEx_settings w
  if created then
    let value : Nat := if enable then 1 else 0
    RegSetValueEx_settings w1 ValueName.AUTOSWITCH_VALUE value
  else (w1, false)

/-- Source `SetBaseMouseCount`. -/
def SetBaseMouseCount (w : World) (count : Int) : World × Bool :=
  if count < 1 then (w, false)
  else
    let (w1, created) := RegCreateKeyEx_settings w
    if created then
      let value : Nat := toDWORD count
      RegSetValueEx_settings w1 ValueName.BASE_MOUSE_COUNT_VALUE value
    else (w1, false)

/-! ## Auto-switch engine -/

/-- Source `IsExternalMouseConnected`. -/
def IsExternalMouseConnected (w : World) : Bool :=
  let currentCount := GetCurrentMouseDeviceCount w
  let baseCount := GetBaseMouseCount w
  decide (currentCount > baseCount)

/-- Source `CheckAndApplyAutoSwitch`. -/
def CheckAndApplyAutoSwitch (w : World) : World :=
  let externalMouseConnected := IsExternalMouseConnected w
  if externalMouseConnected ≠ w.g_lastDisplayState then
    let w1 := { w with g_lastDisplayState := externalMouseConnected }
    let w2 := if externalMouseConnected then SwapMouseButton w1 true else SwapMouseButton w1 false
    if w2.g_hwndMain ≠ 0 then UpdateTrayIcon w2 w2.g_hwndMain (GetIconForCurrentState w2)
    else w2
  else w

/-- Win32 `SetTimer` for a window timer: an existing timer with the same
window and id is replaced. -/
def SetTimer (w : World) (hwnd : HWND) (id elapse : Nat) : World :=
  { w with
    timers := (w.timers.filter (fun t => !(t.1 = hwnd ∧ t.2.1 = id))) ++ [(hwnd, id, elapse)],
    log := w.log ++ [Event.SetTimer hwnd id elapse] }

/-- Win32 `KillTimer`. -/
def KillTimer (w : World) (hwnd : HWND) (id : Nat) : World :=
  { w with
    timers := w.timers.filter (fun t => !(t.1 = hwnd ∧ t.2.1 = id)),
    log := w.log ++ [Event.KillTimer hwnd id] }

/-- Source `StartAutoSwitchMonitoring`. -/
def StartAutoSwitchMonitoring (w : World) (hwnd : HWND) : World :=
  SetTimer w hwnd TIMER_AUTOSWITCH 2000

/-- Source `StopAutoSwitchMonitoring`. -/
def StopAutoSwitchMonitoring (w : World) (hwnd : HWND) : World :=
  KillTimer w hwnd TIMER_AUTOSWITCH

/-! ## Startup registration -/

/-- Source `GetExecutablePath`: `GetModuleFileName` into a `MAX_PATH` buffer. -/
def GetExecutablePath (w : World) : List Nat := w.exePath.take (MAX_PATH - 1)

/-- Bytes of a wide string with its terminator. -/
def wideBytes (s : List Nat) : List Nat :=
  (s ++ [0]).flatMap (fun c => [c % 256, c / 256 % 256])

/-- Source `IsStartupEnabled`. -/
def IsStartupEnabled (w : World) : Bool :=
  match (if w.runKeyReadable then w.runKey else none) with
  | some key =>
    let (status, type, _) := RegQueryValueEx key.appValue (List.replicate (2 * MAX_PATH) 0)
    if status = LSTATUS.ERROR_SUCCESS then
      if type = REG_SZ then true else false
    else false
  | none => false

/-- `RegOpenKeyEx(HKEY_CURRENT_USER, REGISTRY_KEY, 0, KEY_WRITE, &hKey)`. -/
def RegOpenKeyEx_run_write (w : World) : LSTATUS :=
  match w.runKey with
  | none => LSTATUS.ERROR_FILE_NOT_FOUND
  | some _ => if w.runKeyWritable then LSTATUS.ERROR_SUCCESS else LSTATUS.ERROR_ACCESS_DENIED

/-- `RegSetValueEx(hKey, REGISTRY_VALUE, 0, REG_SZ, path, size)` under the Run key. -/
def RegSetValueEx_run (w : World) (path : List Nat) : World × Bool :=
  let rv : RegValue := { dwType := REG_SZ, data := wideBytes path }
  let w1 := { w with log := w.log ++ [Event.RegSetValueEx ValueName.REGISTRY_VALUE rv] }
  if w.runValueWritable then ({ w1 with runKey := some { appValue := some rv } }, true)
  else (w1, false)

/-- `RegDeleteValue(hKey, REGISTRY_VALUE)` under the Run key. -/
def RegDeleteValue_run (w : World) : World × LSTATUS :=
  let w1 := { w with log := w.log ++ [Event.RegDeleteValue ValueName.REGISTRY_VALUE] }
  match w.runKey with
  | some key =>
    match key.appValue with
    | none => (w1, LSTATUS.ERROR_FILE_NOT_FOUND)
    | some _ =>
      if w.runValueWritable then ({ w1 with runKey := some { appValue := none } }, LSTATUS.ERROR_SUCCESS)
      else (w1, LSTATUS.ERROR_ACCESS_DENIED)
  | none => (w1, LSTATUS.ERROR_FILE_NOT_FOUND)

/-- Source `SetStartupEnabled`. -/
def SetStartupEnabled (w : World) (enable : Bool) : World × Bool :=
  let result := RegOpenKeyEx_run_write w
  if enable then
    if result = LSTATUS.ERROR_SUCCESS then
      let path := GetExecutablePath w
      RegSetValueEx_run w path
    else (w, false)
  else
    if result = LSTATUS.ERROR_SUCCESS then
      let (w1, deleteResult) := RegDeleteValue_run w
      if deleteResult = LSTATUS.ERROR_SUCCESS ∨ deleteResult = LSTATUS.ERROR_FILE_NOT_FOUND then
        (w1, true)
      else (w1, false)
    else if result = LSTATUS.ERROR_FILE_NOT_FOUND then (w, true)
    else (w, false)

/-! ## Options dialog -/

/-- Win32 `MessageBox` with an OK button. -/
def MessageBox (w : World) (text : Message) : World :=
  { w with log := w.log ++ [Event.MessageBox text] }

/-- Win32 `EndDialog`. -/
def EndDialog (w : World) (result : Nat) : World :=
  { w with log := w.log ++ [Event.EndDialog result] }

/-- State of the dialog controls when OK is pressed: the two check boxes and
the `int` that `_wtoi` returns for the text of the base-count edit control. -/
structure OptionsDialog where
  startupChecked : Bool
  autoSwitchChecked : Bool
  baseCount : Int
deriving DecidableEq, Repr

/-- Source `OptionsDialogProc`, `WM_INITDIALOG`: the values put into the controls. -/
def OptionsDialogProc_INITDIALOG (w : World) : OptionsDialog :=
  { startupChecked := IsStartupEnabled w
    autoSwitchChecked := IsAutoSwitchEnabled w
    baseCount := GetBaseMouseCount w }

/-- Source `OptionsDialogProc`, `WM_COMMAND` with `IDOK`. -/
def OptionsDialogProc_IDOK (w : World) (dlg : OptionsDialog) : World :=
  let startupEnabled := dlg.startupChecked
  let autoSwitchEnabled := dlg.autoSwitchChecked
  let baseCount := dlg.baseCount
  if baseCount < 1 then MessageBox w Message.InvalidBaseCount
  else
    let (w1, ok1) := SetStartupEnabled w startupEnabled
    let w2 := if !ok1 then MessageBox w1 Message.StartupUpdateFailed else w1
    let (w3, ok2) := SetAutoSwitchEnabled w2 autoSwitchEnabled
    let w4 :=
      if !ok2 then MessageBox w3 Message.AutoSwitchUpdateFailed
      else if autoSwitchEnabled then
        CheckAndApplyAutoSwitch (StartAutoSwitchMonitoring w3 w3.g_hwndMain)
      else StopAutoSwitchMonitoring w3 w3.g_hwndMain
    let (w5, ok3) := SetBaseMouseCount w4 baseCount
    let w6 :=
      if !ok3 then MessageBox w5 Message.BaseCountUpdateFailed
      else if autoSwitchEnabled then CheckAndApplyAutoSwitch w5
      else w5
    EndDialog w6 IDOK

/-! ## Window procedure and program start -/

def WM_LBUTTONDBLCLK : Nat := 0x0203
def WM_RBUTTONUP : Nat := 0x0205
def WM_RBUTTONDBLCLK : Nat := 0x0206
def IDM_RIGHTHANDED : Nat := 1001
def IDM_LEFTHANDED : Nat := 1002
def IDM_EXIT : Nat := 1005

/-- Messages of the main window whose handling is modelled.  The two menu
commands that open a modal dialog are not among them: the options dialog is
modelled by its own procedure above. -/
inductive WindowMessage
  | WM_CREATE
  | WM_TIMER (wParam : Nat)
  | WM_TRAYICON (lParamLow : Nat)
  | WM_COMMAND (wParamLow : Nat)
  | WM_DESTROY
deriving DecidableEq, Repr

/-- Source `WndProc`. -/
def WndProc (w : World) (hwnd : HWND) (msg : WindowMessage) : World :=
  match msg with
  | WindowMessage.WM_CREATE =>
    let w1 := AddTrayIcon w hwnd (GetIconForCurrentState w)
    if IsAutoSwitchEnabled w1 then
      let w2 := { w1 with g_lastDisplayState := !IsExternalMouseConnected w1 }
      let w3 := StartAutoSwitchMonitoring w2 hwnd
      CheckAndApplyAutoSwitch w3
    else w1
  | WindowMessage.WM_TIMER wParam =>
    if wParam = TIMER_AUTOSWITCH then CheckAndApplyAutoSwitch w else w
  | WindowMessage.WM_TRAYICON lParamLow =>
    if lParamLow = WM_LBUTTONDBLCLK ∨ lParamLow = WM_RBUTTONDBLCLK then
      let w1 := FlipMouseOrientation w
      UpdateTrayIcon w1 hwnd (GetIconForCurrentState w1)
    else w
  | WindowMessage.WM_COMMAND wParamLow =>
    if wParamLow = IDM_RIGHTHANDED then
      let w1 := SwapMouseButton w false
      UpdateTrayIcon w1 hwnd (GetIconForCurrentState w1)
    else if wParamLow = IDM_LEFTHANDED then
      let w1 := SwapMouseButton w true
      UpdateTrayIcon w1 hwnd (GetIconForCurrentState w1)
    else if wParamLow = IDM_EXIT then
      let w1 := RemoveTrayIcon w hwnd
      { w1 with log := w1.log ++ [Event.PostQuitMessage 0] }
    else w
  | WindowMessage.WM_DESTROY =>
    let w1 := StopAutoSwitchMonitoring w hwnd
    let w2 := RemoveTrayIcon w1 hwnd
    { w2 with log := w2.log ++ [Event.PostQuitMessage 0] }

/-- The program's globals at process start, as their initialisers give them. -/
def processStart (w : World) : World :=
  { w with g_nid := { hWnd := 0, hIcon := 0 }, g_hwndMain := 0, g_lastDisplayState := false }

/-- Source `wWinMain` up to the message loop.  `registered` is the outcome of
`RegisterClassEx`, `hwnd` the handle `CreateWindowEx` returns (0 on failure);
`WM_CREATE` is handled inside `CreateWindowEx`, before `g_hwndMain` is
assigned.  The second component is the exit code of an early return. -/
def wWinMain_start (w : World) (registered : Bool) (hwnd : HWND) : World × Option Int :=
  let w0 := processStart w
  if !registered then (MessageBox w0 Message.WindowRegistrationFailed, some 1)
  else if hwnd = 0 then (MessageBox w0 Message.WindowCreationFailed, some 1)
  else
    let w1 := WndProc w0 hwnd WindowMessage.WM_CREATE
    ({ w1 with g_hwndMain := hwnd }, none)

/-! ## Traces of timer ticks -/

/-- The environment between two ticks: devices are attached or removed. -/
def setDevices (w : World) (devs : List RAWINPUTDEVICELIST) : World :=
  { w with devices := devs }

/-- One timer tick of the message loop, with the devices attached at that time. -/
def tick (w : World) (devs : List RAWINPUTDEVICELIST) : World :=
  WndProc (setDevices w devs) w.g_hwndMain (WindowMessage.WM_TIMER TIMER_AUTOSWITCH)

/-- The calls issued by a step from `w` to `w2`: what the step appended to the log. -/
def issued (w w2 : World) : List Event := w2.log.drop w.log.length

/-- Runs one tick per device list and collects the calls each tick issued. -/
def runTicks (w : World) : List (List RAWINPUTDEVICELIST) → List (List Event)
  | [] => []
  | devs :: rest => issued w (tick w devs) :: runTicks (tick w devs) rest

/-- The event is a call of `SwapMouseButton` (HandednessController.apply). -/
def Event.isSwap : Event → Bool
  | Event.SwapMouseButton _ => true
  | _ => false

/-- The event is the `Shell_NotifyIcon(NIM_MODIFY, ..)` of `UpdateTrayIcon`
(the UI notification). -/
def Event.isUpdateTrayIcon : Event → Bool
  | Event.Shell_NotifyIcon dwMessage _ => decide (dwMessage = NIM_MODIFY)
  | _ => false

/-- `n` mouse devices. -/
def mice (n : Nat) : List RAWINPUTDEVICELIST :=
  (List.range n).map (fun i => { hDevice := i + 1, dwType := RIM_TYPEMOUSE })

/-- A sample environment: one built-in mouse and a keyboard attached, no
stored settings, every registry access permitted, right-handed buttons. -/
def sampleWorld : World :=
  { devices := [{ hDevice := 1, dwType := 0 }, { hDevice := 2, dwType := 1 }]
    sizeQueryFails := false
    listQueryFails := false
    settingsKey := none
    runKey := some { appValue := none }
    settingsReadable := true
    settingsCreatable := true
    settingsValueWritable := true
    runKeyReadable := true
    runKeyWritable := true
    runValueWritable := true
    exePath := [67, 58, 92, 109, 46, 101, 120, 101]
    swapButton := false
    trayIcon := none
    timers := []
    g_nid := { hWnd := 0, hIcon := 0 }
    g_hwndMain := 0
    g_lastDisplayState := false
    log := [] }

/-- The two worlds agree on what the device query and the settings reads see. -/
def SameInputs (a b : World) : Prop :=
  a.devices = b.devices ∧ a.sizeQueryFails = b.sizeQueryFails ∧
  a.listQueryFails = b.listQueryFails ∧ a.settingsKey = b.settingsKey ∧
  a.settingsReadable = b.settingsReadable

/-- A state for the examples: the sample environment with two mice attached and
the main window created. -/
def twoMiceWorld : World := { sampleWorld with devices := mice 2, g_hwndMain := 7 }

/-- The sample environment at program start with the buttons swapped by an
earlier session; one mouse attached, base count 1. -/
def leftHandedStart : World := { sampleWorld with swapButton := true }

/-- The program after start in `sampleWorld` (window handle 7), then the options
dialog confirmed with auto-switch unchecked, then a double-click on the tray
icon, then the options dialog confirmed with auto-switch checked; the devices
and the base count (1) are the same throughout. -/
def restartRun : World :=
  let started := (wWinMain_start sampleWorld true 7).1
  let stopped := OptionsDialogProc_IDOK started
    { startupChecked := false, autoSwitchChecked := false, baseCount := 1 }
  let toggled := WndProc stopped 7 (WindowMessage.WM_TRAYICON WM_LBUTTONDBLCLK)
  OptionsDialogProc_IDOK toggled
    { startupChecked := false, autoSwitchChecked := true, baseCount := 1 }

/-- The state in which `WM_CREATE` runs the first evaluation when two mice are
attached: `g_hwndMain` is still `NULL`, the remembered state was just set to
the negation of the detected one. -/
def createTimeWorld : World :=
  { sampleWorld with devices := mice 2, g_hwndMain := 0, g_lastDisplayState := false }

/-- The calls the spec's `evaluate()` prescribes for a sequence of ticks, from
the spec's words (steps 3 to 5): `prev` is the remembered external state and
each list element the external state detected at one tick; a tick whose state
equals the remembered one issues nothing, any other tick applies the handedness
and, when the main window `hwndMain` exists, refreshes the icon registered for
window `nidWnd`. -/
def expectedTickCalls (hwndMain nidWnd : HWND) : Bool → List Bool → List (List Event)
  | _, [] => []
  | prev, e :: es =>
    (if e = prev then []
     else if hwndMain ≠ 0 then
       [Event.SwapMouseButton e,
        Event.Shell_NotifyIcon NIM_MODIFY
          { hWnd := nidWnd, hIcon := if e then IDI_ICON_LEFT else IDI_ICON_RIGHT }]
     else [Event.SwapMouseButton e]) :: expectedTickCalls hwndMain nidWnd e es

/-- For a sequence of detected external states, whether each differs from the
one before it; `prev` precedes the first. -/
def crossings : Bool → List Bool → List Bool
  | _, [] => []
  | prev, e :: es => (e != prev) :: crossings e es

/-- The sample environment with the settings key holding `BaseMouseCount` as the
`REG_DWORD` 0xFFFFFFFB (bytes FB FF FF FF). -/
def largeBaseWorld : World :=
  { sampleWorld with
    settingsKey := some
      { autoSwitch := none
        baseMouseCount := some { dwType := REG_DWORD, data := [0xFB, 0xFF, 0xFF, 0xFF] } } }

/-- The test `deviceList[i].dwType == RIM_TYPEMOUSE` of the counting loop. -/
def isMouse (d : RAWINPUTDEVICELIST) : Bool := decide (d.dwType = RIM_TYPEMOUSE)

/-- A monitoring state with an external mouse attached (two mice against base
count 1), the remembered state true and the buttons swapped (left-handed). -/
def externalAttachedWorld : World :=
  { twoMiceWorld with g_lastDisplayState := true, swapButton := true }

/-- The sample environment with a settings key that may be written but not
opened for reading. -/
def writeOnlyWorld : World := { sampleWorld with settingsReadable := false }

/-- The stored `AutoSwitch` value, `none` when the key or the value is absent. -/
def storedAutoSwitch (w : World) : Option RegValue :=
  w.settingsKey.bind (fun key => key.autoSwitch)

/-! # Theorems -/

/-! ## What the engine's inputs depend on -/

theorem SameInputs.refl (a : World) : SameInputs a a := ⟨rfl, rfl, rfl, rfl, rfl⟩

theorem SameInputs.trans {a b c : World} (h1 : SameInputs a b) (h2 : SameInputs b c) :
    SameInputs a c := by
  obtain ⟨p1, p2, p3, p4, p5⟩ := h1
  obtain ⟨q1, q2, q3, q4, q5⟩ := h2
  exact ⟨p1.trans q1, p2.trans q2, p3.trans q3, p4.trans q4, p5.trans q5⟩

theorem GetCurrentMouseDeviceCount_congr {a b : World} (h : SameInputs a b) :
    GetCurrentMouseDeviceCount a = GetCurrentMouseDeviceCount b := by
  obtain ⟨h1, h2, h3, _, _⟩ := h
  simp only [GetCurrentMouseDeviceCount, GetRawInputDeviceList_size, GetRawInputDeviceList_fill,
    h1, h2, h3]

theorem GetBaseMouseCount_congr {a b : World} (h : SameInputs a b) :
    GetBaseMouseCount a = GetBaseMouseCount b := by
  obtain ⟨_, _, _, h4, h5⟩ := h
  simp only [GetBaseMouseCount, RegOpenKeyEx_settings_read, h4, h5]

theorem IsAutoSwitchEnabled_congr {a b : World} (h : SameInputs a b) :
    IsAutoSwitchEnabled a = IsAutoSwitchEnabled b := by
  obtain ⟨_, _, _, h4, h5⟩ := h
  simp only [IsAutoSwitchEnabled, RegOpenKeyEx_settings_read, h4, h5]

theorem IsExternalMouseConnected_congr {a b : World} (h : SameInputs a b) :
    IsExternalMouseConnected a = IsExternalMouseConnected b := by
  simp only [IsExternalMouseConnected, GetCurrentMouseDeviceCount_congr h,
    GetBaseMouseCount_congr h]

/-- What one evaluation does when the detected state differs from the remembered one. -/
theorem CheckAndApplyAutoSwitch_of_ne (w : World)
    (h : IsExternalMouseConnected w ≠ w.g_lastDisplayState) :
    CheckAndApplyAutoSwitch w =
      if w.g_hwndMain ≠ 0 then
        UpdateTrayIcon
          (SwapMouseButton { w with g_lastDisplayState := IsExternalMouseConnected w }
            (IsExternalMouseConnected w))
          w.g_hwndMain (if IsExternalMouseConnected w then IDI_ICON_LEFT else IDI_ICON_RIGHT)
      else
        SwapMouseButton { w with g_lastDisplayState := IsExternalMouseConnected w }
          (IsExternalMouseConnected w) := by
  unfold CheckAndApplyAutoSwitch
  simp only [h, ne_eq, not_false_eq_true, if_true]
  cases hx : IsExternalMouseConnected w <;>
    simp [SwapMouseButton, GetIconForCurrentState, GetCurrentMouseState]

/-- One evaluation is a no-op when the detected state equals the remembered one. -/
theorem CheckAndApplyAutoSwitch_of_eq (w : World)
    (h : IsExternalMouseConnected w = w.g_lastDisplayState) :
    CheckAndApplyAutoSwitch w = w := by
  unfold CheckAndApplyAutoSwitch
  simp [h]

theorem CheckAndApplyAutoSwitch_sameInputs (w : World) :
    SameInputs w (CheckAndApplyAutoSwitch w) := by
  by_cases h : IsExternalMouseConnected w = w.g_lastDisplayState
  · rw [CheckAndApplyAutoSwitch_of_eq w h]; exact SameInputs.refl w
  · rw [CheckAndApplyAutoSwitch_of_ne w h]
    split <;> exact ⟨rfl, rfl, rfl, rfl, rfl⟩

theorem CheckAndApplyAutoSwitch_last (w : World) :
    (CheckAndApplyAutoSwitch w).g_lastDisplayState = IsExternalMouseConnected w := by
  by_cases h : IsExternalMouseConnected w = w.g_lastDisplayState
  · rw [CheckAndApplyAutoSwitch_of_eq w h]; exact h.symm
  · rw [CheckAndApplyAutoSwitch_of_ne w h]
    split <;> rfl

theorem CheckAndApplyAutoSwitch_hwndMain (w : World) :
    (CheckAndApplyAutoSwitch w).g_hwndMain = w.g_hwndMain := by
  by_cases h : IsExternalMouseConnected w = w.g_lastDisplayState
  · rw [CheckAndApplyAutoSwitch_of_eq w h]
  · rw [CheckAndApplyAutoSwitch_of_ne w h]
    split <;> rfl

theorem CheckAndApplyAutoSwitch_swapButton_of_ne (w : World)
    (h : IsExternalMouseConnected w ≠ w.g_lastDisplayState) :
    (CheckAndApplyAutoSwitch w).swapButton = IsExternalMouseConnected w := by
  rw [CheckAndApplyAutoSwitch_of_ne w h]
  split <;> rfl

/-- The calls one evaluation issues. -/
theorem CheckAndApplyAutoSwitch_issued (w : World) :
    issued w (CheckAndApplyAutoSwitch w) =
      if IsExternalMouseConnected w = w.g_lastDisplayState then []
      else if w.g_hwndMain ≠ 0 then
        [Event.SwapMouseButton (IsExternalMouseConnected w),
         Event.Shell_NotifyIcon NIM_MODIFY
           { hWnd := w.g_nid.hWnd,
             hIcon := if IsExternalMouseConnected w then IDI_ICON_LEFT else IDI_ICON_RIGHT }]
      else [Event.SwapMouseButton (IsExternalMouseConnected w)] := by
  by_cases h : IsExternalMouseConnected w = w.g_lastDisplayState
  · rw [CheckAndApplyAutoSwitch_of_eq w h]; simp [issued, h]
  · rw [CheckAndApplyAutoSwitch_of_ne w h]
    by_cases hw : w.g_hwndMain = 0
    · simp [issued, h, hw, SwapMouseButton]
    · simp [issued, h, hw, SwapMouseButton, UpdateTrayIcon, Shell_NotifyIcon]

/-! ## C1: one evaluation -/

/-- C1: for every world, with `detected` the device count and `base` the stored
base count, one call of `CheckAndApplyAutoSwitch` computes
external = (detected > base), which is false when detected = base, and when
external differs from the remembered state it ends with
`g_lastDisplayState = external` and handedness LeftHanded if external is true,
RightHanded if it is false. -/
theorem C1_evaluate_applies_external (w : World) (detected base : Int)
    (hd : GetCurrentMouseDeviceCount w = detected) (hb : GetBaseMouseCount w = base) :
    IsExternalMouseConnected w = decide (detected > base) ∧
    (detected = base → IsExternalMouseConnected w = false) ∧
    (decide (detected > base) ≠ w.g_lastDisplayState →
      (CheckAndApplyAutoSwitch w).g_lastDisplayState = decide (detected > base) ∧
      currentHandedness (CheckAndApplyAutoSwitch w) =
        if detected > base then Handedness.LeftHanded else Handedness.RightHanded) := by
  have hext : IsExternalMouseConnected w = decide (detected > base) := by
    simp only [IsExternalMouseConnected, hd, hb]
  refine ⟨hext, ?_, ?_⟩
  · intro h
    rw [hext, h]
    simp
  · intro hne
    rw [← hext] at hne
    refine ⟨by rw [CheckAndApplyAutoSwitch_last, hext], ?_⟩
    simp only [currentHandedness, GetCurrentMouseState,
      CheckAndApplyAutoSwitch_swapButton_of_ne w hne, hext, decide_eq_true_eq]

/-- C1 at a concrete state: two mice against base 1 with remembered state false. -/
theorem C1_evaluate_applies_external_witness :
    (CheckAndApplyAutoSwitch twoMiceWorld).g_lastDisplayState = true ∧
    currentHandedness (CheckAndApplyAutoSwitch twoMiceWorld) = Handedness.LeftHanded := by
  have h := (C1_evaluate_applies_external twoMiceWorld 2 1 (by decide) (by decide)).2.2
    (by decide)
  simpa using h

/-! ## C2: the start transition -/

theorem WndProc_WM_CREATE_enabled (w : World) (hwnd : HWND)
    (h : IsAutoSwitchEnabled w = true) :
    WndProc w hwnd WindowMessage.WM_CREATE =
      CheckAndApplyAutoSwitch (StartAutoSwitchMonitoring
        { AddTrayIcon w hwnd (GetIconForCurrentState w) with
          g_lastDisplayState := !IsExternalMouseConnected w } hwnd) := by
  have hs : SameInputs w (AddTrayIcon w hwnd (GetIconForCurrentState w)) :=
    ⟨rfl, rfl, rfl, rfl, rfl⟩
  simp only [WndProc, ← IsAutoSwitchEnabled_congr hs, h, if_true,
    ← IsExternalMouseConnected_congr hs]

theorem WndProc_WM_CREATE_swapButton (w : World) (hwnd : HWND)
    (h : IsAutoSwitchEnabled w = true) :
    (WndProc w hwnd WindowMessage.WM_CREATE).swapButton = IsExternalMouseConnected w := by
  rw [WndProc_WM_CREATE_enabled w hwnd h]
  have hs : SameInputs w (StartAutoSwitchMonitoring
      { AddTrayIcon w hwnd (GetIconForCurrentState w) with
        g_lastDisplayState := !IsExternalMouseConnected w } hwnd) :=
    ⟨rfl, rfl, rfl, rfl, rfl⟩
  rw [CheckAndApplyAutoSwitch_swapButton_of_ne, ← IsExternalMouseConnected_congr hs]
  rw [← IsExternalMouseConnected_congr hs]
  show IsExternalMouseConnected w ≠ !IsExternalMouseConnected w
  cases IsExternalMouseConnected w <;> simp

/-- C2: for every world in which auto-switch is enabled (any device list, any
stored base count, any prior handedness, any prior `g_lastDisplayState`), after
`WndProc` has handled `WM_CREATE` the handedness is LeftHanded iff
detected > base; with detected = 0 and base = 1 it is RightHanded. -/
theorem C2_start_forces_synchronization (w : World) (hwnd : HWND)
    (h : IsAutoSwitchEnabled w = true) :
    (currentHandedness (WndProc w hwnd WindowMessage.WM_CREATE) = Handedness.LeftHanded ↔
      GetCurrentMouseDeviceCount w > GetBaseMouseCount w) ∧
    (GetCurrentMouseDeviceCount w = 0 → GetBaseMouseCount w = 1 →
      currentHandedness (WndProc w hwnd WindowMessage.WM_CREATE) = Handedness.RightHanded) := by
  have hsw := WndProc_WM_CREATE_swapButton w hwnd h
  constructor
  · simp only [currentHandedness, GetCurrentMouseState, hsw, IsExternalMouseConnected]
    by_cases hc : GetCurrentMouseDeviceCount w > GetBaseMouseCount w <;> simp [hc]
  · intro h0 h1
    simp [currentHandedness, GetCurrentMouseState, hsw, IsExternalMouseConnected, h0, h1]

/-- C2 at a concrete start: buttons left swapped by an earlier session, one
mouse attached, base 1; the start makes the handedness RightHanded. -/
theorem C2_start_forces_synchronization_witness :
    IsAutoSwitchEnabled leftHandedStart = true ∧
    currentHandedness leftHandedStart = Handedness.LeftHanded ∧
    ¬ (currentHandedness (WndProc leftHandedStart 7 WindowMessage.WM_CREATE)
        = Handedness.LeftHanded) :=
  ⟨by decide, by decide,
    fun hl => absurd ((C2_start_forces_synchronization leftHandedStart 7 (by decide)).1.mp hl)
      (by decide)⟩

/-! ## C3: restart through the options dialog -/

/-- C3, the code at the failing input: after stop, manual toggle and restart
with one mouse attached and base count 1 throughout, the restart issues no
`SwapMouseButton` and the handedness stays LeftHanded although detected = base:
the dialog path starts the timer and evaluates without first setting
`g_lastDisplayState` to the negation of the detected state. -/
theorem C3_restart_does_not_resynchronize :
    GetCurrentMouseDeviceCount restartRun = 1 ∧ GetBaseMouseCount restartRun = 1 ∧
    IsExternalMouseConnected restartRun = false ∧
    restartRun.g_lastDisplayState = false ∧
    currentHandedness restartRun = Handedness.LeftHanded ∧
    restartRun.log.reverse.take 6 =
      [Event.EndDialog IDOK,
       Event.RegSetValueEx ValueName.BASE_MOUSE_COUNT_VALUE
         { dwType := REG_DWORD, data := [1, 0, 0, 0] },
       Event.RegCreateKeyEx,
       Event.SetTimer 7 TIMER_AUTOSWITCH 2000,
       Event.RegSetValueEx ValueName.AUTOSWITCH_VALUE
         { dwType := REG_DWORD, data := [1, 0, 0, 0] },
       Event.RegCreateKeyEx] := by
  decide

/-! ## C4: handedness change and icon refresh -/

/-- C4 as stated fails: in the state `WM_CREATE` evaluates in (main-window handle
still `NULL`) with two mice against base 1, the evaluation issues
`SwapMouseButton` and no `UpdateTrayIcon`. -/
theorem C4_counterexample_null_window :
    (issued createTimeWorld (CheckAndApplyAutoSwitch createTimeWorld)).any Event.isSwap = true ∧
    (issued createTimeWorld (CheckAndApplyAutoSwitch createTimeWorld)).any
      Event.isUpdateTrayIcon = false := by
  decide

/-- C4 amended: in every state whose main-window handle is not `NULL`, one
evaluation issues `SwapMouseButton` iff it issues `UpdateTrayIcon`; in every
state `UpdateTrayIcon` is issued only together with `SwapMouseButton`, and no
call at all is issued when the detected external state equals the remembered
one. -/
theorem C4_apply_and_refresh_together (w : World) :
    (w.g_hwndMain ≠ 0 →
      ((issued w (CheckAndApplyAutoSwitch w)).any Event.isSwap = true ↔
       (issued w (CheckAndApplyAutoSwitch w)).any Event.isUpdateTrayIcon = true)) ∧
    ((issued w (CheckAndApplyAutoSwitch w)).any Event.isUpdateTrayIcon = true →
      (issued w (CheckAndApplyAutoSwitch w)).any Event.isSwap = true) ∧
    (IsExternalMouseConnected w = w.g_lastDisplayState →
      issued w (CheckAndApplyAutoSwitch w) = []) := by
  rw [CheckAndApplyAutoSwitch_issued]
  by_cases h : IsExternalMouseConnected w = w.g_lastDisplayState
  · simp [h]
  · by_cases hw : w.g_hwndMain = 0
    · simp [h, hw, Event.isSwap, Event.isUpdateTrayIcon]
    · simp [h, hw, Event.isSwap, Event.isUpdateTrayIcon]

/-- C4 amended, at a state with a main window: two mice against base 1 issue
both calls. -/
theorem C4_apply_and_refresh_together_witness :
    twoMiceWorld.g_hwndMain ≠ 0 ∧
    (issued twoMiceWorld (CheckAndApplyAutoSwitch twoMiceWorld)).any
      Event.isUpdateTrayIcon = true :=
  ⟨by decide,
    ((C4_apply_and_refresh_together twoMiceWorld).1 (by decide)).mp (by decide)⟩

/-! ## C5: traces of ticks -/

theorem issued_self (w : World) : issued w w = [] := by
  simp [issued]

theorem tick_eq (s : World) (d : List RAWINPUTDEVICELIST) :
    tick s d = CheckAndApplyAutoSwitch (setDevices s d) := by
  simp [tick, WndProc]

theorem setDevices_sameInputs {a b : World} (d : List RAWINPUTDEVICELIST)
    (h2 : a.sizeQueryFails = b.sizeQueryFails) (h3 : a.listQueryFails = b.listQueryFails)
    (h4 : a.settingsKey = b.settingsKey) (h5 : a.settingsReadable = b.settingsReadable) :
    SameInputs (setDevices a d) (setDevices b d) :=
  ⟨rfl, h2, h3, h4, h5⟩

theorem tick_sameInputs (s : World) (d d2 : List RAWINPUTDEVICELIST) :
    SameInputs (setDevices s d2) (setDevices (tick s d) d2) := by
  rw [tick_eq]
  obtain ⟨_, h2, h3, h4, h5⟩ := CheckAndApplyAutoSwitch_sameInputs (setDevices s d)
  exact setDevices_sameInputs d2 h2 h3 h4 h5

theorem CheckAndApplyAutoSwitch_nid_hWnd (w : World) :
    (CheckAndApplyAutoSwitch w).g_nid.hWnd = w.g_nid.hWnd := by
  by_cases h : IsExternalMouseConnected w = w.g_lastDisplayState
  · rw [CheckAndApplyAutoSwitch_of_eq w h]
  · rw [CheckAndApplyAutoSwitch_of_ne w h]
    split <;> rfl

/-- The code's ticks issue the calls the spec's `evaluate()` prescribes. -/
theorem runTicks_eq_expected (ds : List (List RAWINPUTDEVICELIST)) (s : World) :
    runTicks s ds =
      expectedTickCalls s.g_hwndMain s.g_nid.hWnd s.g_lastDisplayState
        (ds.map (fun d => IsExternalMouseConnected (setDevices s d))) := by
  induction ds generalizing s with
  | nil => rfl
  | cons d rest ih =>
    have hi : issued s (tick s d) =
        issued (setDevices s d) (CheckAndApplyAutoSwitch (setDevices s d)) := by
      rw [tick_eq]; rfl
    have hmap : rest.map (fun d2 => IsExternalMouseConnected (setDevices (tick s d) d2)) =
        rest.map (fun d2 => IsExternalMouseConnected (setDevices s d2)) := by
      apply List.map_congr_left
      intro d2 _
      exact (IsExternalMouseConnected_congr (tick_sameInputs s d d2)).symm
    simp only [runTicks, List.map_cons, expectedTickCalls]
    rw [ih (tick s d), hmap, hi, CheckAndApplyAutoSwitch_issued]
    rw [tick_eq, CheckAndApplyAutoSwitch_last, CheckAndApplyAutoSwitch_hwndMain,
      CheckAndApplyAutoSwitch_nid_hWnd]
    rfl

theorem expectedTickCalls_any_isSwap (hwndMain nidWnd : HWND) (es : List Bool) (prev : Bool) :
    (expectedTickCalls hwndMain nidWnd prev es).map (fun evs => evs.any Event.isSwap) =
      crossings prev es := by
  induction es generalizing prev with
  | nil => rfl
  | cons e rest ih =>
    simp only [expectedTickCalls, crossings, List.map_cons, ih]
    congr 1
    by_cases h : e = prev
    · simp [h]
    · by_cases hw : hwndMain = 0 <;> simp [h, hw, Event.isSwap]

theorem wWinMain_start_enabled (w : World) (hwnd : HWND) (hh : hwnd ≠ 0)
    (h : IsAutoSwitchEnabled w = true) :
    wWinMain_start w true hwnd =
      ({ SwapMouseButton
          { StartAutoSwitchMonitoring
              (AddTrayIcon (processStart w) hwnd (GetIconForCurrentState w)) hwnd with
            g_lastDisplayState := IsExternalMouseConnected w }
          (IsExternalMouseConnected w) with g_hwndMain := hwnd }, none) := by
  have hs : SameInputs w (processStart w) := ⟨rfl, rfl, rfl, rfl, rfl⟩
  have h2 : IsAutoSwitchEnabled (processStart w) = true := by
    rw [← IsAutoSwitchEnabled_congr hs]; exact h
  have hs3 : SameInputs w (StartAutoSwitchMonitoring
      { AddTrayIcon (processStart w) hwnd (GetIconForCurrentState (processStart w)) with
        g_lastDisplayState := !IsExternalMouseConnected (processStart w) } hwnd) :=
    ⟨rfl, rfl, rfl, rfl, rfl⟩
  simp only [wWinMain_start, hh, Bool.not_true, if_false, Bool.false_eq_true]
  rw [WndProc_WM_CREATE_enabled (processStart w) hwnd h2, CheckAndApplyAutoSwitch_of_ne]
  · rw [← IsExternalMouseConnected_congr hs3]
    rfl
  · rw [← IsExternalMouseConnected_congr hs3]
    show IsExternalMouseConnected w ≠ !IsExternalMouseConnected (processStart w)
    rw [← IsExternalMouseConnected_congr hs]
    cases IsExternalMouseConnected w <;> simp

theorem IsExternalMouseConnected_setDevices_of_counts (w s : World)
    (d : List RAWINPUTDEVICELIST) (c b : Int)
    (h2 : w.sizeQueryFails = s.sizeQueryFails) (h3 : w.listQueryFails = s.listQueryFails)
    (h4 : w.settingsKey = s.settingsKey) (h5 : w.settingsReadable = s.settingsReadable)
    (hb : GetBaseMouseCount w = b) (hc : GetCurrentMouseDeviceCount (setDevices w d) = c) :
    IsExternalMouseConnected (setDevices s d) = decide (c > b) := by
  have hs : SameInputs (setDevices w d) (setDevices s d) := setDevices_sameInputs d h2 h3 h4 h5
  have hb2 : GetBaseMouseCount (setDevices w d) = b := hb
  rw [← IsExternalMouseConnected_congr hs]
  simp only [IsExternalMouseConnected, hb2, hc]

/-- C5: (scenario) for every environment with auto-switch enabled and base
count 1, starting the program while the detected count is 1 and then ticking
with detected counts 1, 3, 3, 1 issues: at start the tray icon, the timer and
`SwapMouseButton(FALSE)` (the initial sync, without icon refresh); at tick 2
nothing; at tick 3 `SwapMouseButton(TRUE)` and one icon refresh; at tick 4
nothing; at tick 5 `SwapMouseButton(FALSE)` and one icon refresh.  (general)
From every state whose remembered state equals the detected one, as it does
after any evaluation and after program start, a sequence of ticks issues
`SwapMouseButton` exactly at the ticks whose external state differs from that
of the tick before. -/
theorem C5_tick_trace (w : World) (hwnd : HWND) (d1 d2 d3 d4 d5 : List RAWINPUTDEVICELIST)
    (hh : hwnd ≠ 0) (hen : IsAutoSwitchEnabled w = true) (hb : GetBaseMouseCount w = 1)
    (h1 : GetCurrentMouseDeviceCount (setDevices w d1) = 1)
    (h2 : GetCurrentMouseDeviceCount (setDevices w d2) = 1)
    (h3 : GetCurrentMouseDeviceCount (setDevices w d3) = 3)
    (h4 : GetCurrentMouseDeviceCount (setDevices w d4) = 3)
    (h5 : GetCurrentMouseDeviceCount (setDevices w d5) = 1) :
    ((wWinMain_start (setDevices w d1) true hwnd).2 = none ∧
      issued w (wWinMain_start (setDevices w d1) true hwnd).1 =
        [Event.Shell_NotifyIcon NIM_ADD { hWnd := hwnd, hIcon := GetIconForCurrentState w },
         Event.SetTimer hwnd TIMER_AUTOSWITCH 2000,
         Event.SwapMouseButton false] ∧
      runTicks (wWinMain_start (setDevices w d1) true hwnd).1 [d2, d3, d4, d5] =
        [[],
         [Event.SwapMouseButton true,
          Event.Shell_NotifyIcon NIM_MODIFY { hWnd := hwnd, hIcon := IDI_ICON_LEFT }],
         [],
         [Event.SwapMouseButton false,
          Event.Shell_NotifyIcon NIM_MODIFY { hWnd := hwnd, hIcon := IDI_ICON_RIGHT }]]) ∧
    (∀ (s : World) (ds : List (List RAWINPUTDEVICELIST)),
      s.g_lastDisplayState = IsExternalMouseConnected s →
      (runTicks s ds).map (fun evs => evs.any Event.isSwap) =
        crossings (IsExternalMouseConnected s)
          (ds.map (fun d => IsExternalMouseConnected (setDevices s d)))) ∧
    (∀ s : World, (CheckAndApplyAutoSwitch s).g_lastDisplayState =
        IsExternalMouseConnected (CheckAndApplyAutoSwitch s)) ∧
    (∀ (w0 : World) (hwnd0 : HWND), hwnd0 ≠ 0 → IsAutoSwitchEnabled w0 = true →
      (wWinMain_start w0 true hwnd0).1.g_lastDisplayState =
        IsExternalMouseConnected (wWinMain_start w0 true hwnd0).1) := by
  refine ⟨?_, ?_, ?_, ?_⟩
  · have hen1 : IsAutoSwitchEnabled (setDevices w d1) = true := hen
    have hx1 : IsExternalMouseConnected (setDevices w d1) = false := by
      rw [IsExternalMouseConnected_setDevices_of_counts w w d1 1 1 rfl rfl rfl rfl hb h1]
      decide
    rw [wWinMain_start_enabled (setDevices w d1) hwnd hh hen1, hx1]
    refine ⟨rfl, ?_, ?_⟩
    · simp [issued, SwapMouseButton, StartAutoSwitchMonitoring, SetTimer, AddTrayIcon,
        Shell_NotifyIcon, processStart, setDevices, GetIconForCurrentState,
        GetCurrentMouseState]
    · obtain ⟨st, hst⟩ : ∃ st : World, st =
          { SwapMouseButton
              { StartAutoSwitchMonitoring
                  (AddTrayIcon (processStart (setDevices w d1)) hwnd
                    (GetIconForCurrentState (setDevices w d1))) hwnd with
                g_lastDisplayState := false }
              false with g_hwndMain := hwnd } := ⟨_, rfl⟩
      have f2 : w.sizeQueryFails = st.sizeQueryFails := by rw [hst]; rfl
      have f3 : w.listQueryFails = st.listQueryFails := by rw [hst]; rfl
      have f4 : w.settingsKey = st.settingsKey := by rw [hst]; rfl
      have f5 : w.settingsReadable = st.settingsReadable := by rw [hst]; rfl
      have g1 : st.g_hwndMain = hwnd := by rw [hst]
      have g2 : st.g_nid.hWnd = hwnd := by rw [hst]; rfl
      have g3 : st.g_lastDisplayState = false := by rw [hst]; rfl
      have hne : ¬ hwnd = 0 := hh
      rw [← hst, runTicks_eq_expected, g1, g2, g3]
      simp only [List.map_cons, List.map_nil]
      rw [IsExternalMouseConnected_setDevices_of_counts w st d2 1 1 f2 f3 f4 f5 hb h2,
        IsExternalMouseConnected_setDevices_of_counts w st d3 3 1 f2 f3 f4 f5 hb h3,
        IsExternalMouseConnected_setDevices_of_counts w st d4 3 1 f2 f3 f4 f5 hb h4,
        IsExternalMouseConnected_setDevices_of_counts w st d5 1 1 f2 f3 f4 f5 hb h5]
      simp [expectedTickCalls, hne]
  · intro s ds hs
    rw [runTicks_eq_expected, expectedTickCalls_any_isSwap, hs]
  · intro s
    rw [CheckAndApplyAutoSwitch_last]
    exact IsExternalMouseConnected_congr (CheckAndApplyAutoSwitch_sameInputs s)
  · intro w0 hwnd0 hh0 hen0
    rw [wWinMain_start_enabled w0 hwnd0 hh0 hen0]
    exact IsExternalMouseConnected_congr ⟨rfl, rfl, rfl, rfl, rfl⟩

/-- C5 at a concrete run: the sample environment (buttons swapped by an earlier
session) with 1, 1, 3, 3, 1 mice attached at the five evaluations. -/
theorem C5_tick_trace_witness :
    runTicks (wWinMain_start (setDevices leftHandedStart (mice 1)) true 7).1
        [mice 1, mice 3, mice 3, mice 1] =
      [[],
       [Event.SwapMouseButton true,
        Event.Shell_NotifyIcon NIM_MODIFY { hWnd := 7, hIcon := IDI_ICON_LEFT }],
       [],
       [Event.SwapMouseButton false,
        Event.Shell_NotifyIcon NIM_MODIFY { hWnd := 7, hIcon := IDI_ICON_RIGHT }]] :=
  (C5_tick_trace leftHandedStart 7 (mice 1) (mice 1) (mice 3) (mice 3) (mice 1)
    (by decide) (by decide) (by decide) (by decide) (by decide) (by decide) (by decide)
    (by decide)).1.2.2

/-! ## C6: idempotence of one evaluation -/

/-- C6: for every world, a second `CheckAndApplyAutoSwitch` right after the
first changes nothing (the whole state, log of issued calls included, is the
one the first call left), it issues no call, and the first call issues
`SwapMouseButton` at most once. -/
theorem C6_evaluate_idempotent (w : World) :
    CheckAndApplyAutoSwitch (CheckAndApplyAutoSwitch w) = CheckAndApplyAutoSwitch w ∧
    issued (CheckAndApplyAutoSwitch w) (CheckAndApplyAutoSwitch (CheckAndApplyAutoSwitch w)) = [] ∧
    (issued w (CheckAndApplyAutoSwitch w)).countP Event.isSwap ≤ 1 := by
  have hfix : CheckAndApplyAutoSwitch (CheckAndApplyAutoSwitch w) = CheckAndApplyAutoSwitch w := by
    apply CheckAndApplyAutoSwitch_of_eq
    rw [CheckAndApplyAutoSwitch_last]
    exact (IsExternalMouseConnected_congr (CheckAndApplyAutoSwitch_sameInputs w)).symm
  refine ⟨hfix, ?_, ?_⟩
  · rw [hfix, issued_self]
  · rw [CheckAndApplyAutoSwitch_issued]
    by_cases h : IsExternalMouseConnected w = w.g_lastDisplayState
    · simp [h]
    · by_cases hw : w.g_hwndMain = 0 <;> simp [h, hw, Event.isSwap, List.countP_cons]

/-! ## C7: reading the base count -/

/-- C7, the code at the failing input: with `BaseMouseCount` stored as the
well-formed `REG_DWORD` 0xFFFFFFFB the test `value > 0` passes on the unsigned
value and `(int)value` is -5, so `GetBaseMouseCount` returns a value below 1
(and every device count, 0 included, then counts as an external mouse). -/
theorem C7_GetBaseMouseCount_below_one :
    largeBaseWorld.settingsKey = some
      { autoSwitch := none
        baseMouseCount := some { dwType := REG_DWORD, data := dwordBytes 0xFFFFFFFB } } ∧
    GetBaseMouseCount largeBaseWorld = -5 ∧
    IsExternalMouseConnected { largeBaseWorld with devices := [] } = true := by
  decide

/-! ## C8: writing the base count -/

/-- C8: for every world, `SetBaseMouseCount` with a count below 1 (0 and -5
included) returns false and leaves the whole world as it was: no registry call
is issued and every stored setting is unchanged; `SetBaseMouseCount(1)` returns
true whenever the settings key can be created or opened and the value can be
written. -/
theorem C8_SetBaseMouseCount_validates (w : World) (count : Int) :
    (count < 1 → SetBaseMouseCount w count = (w, false)) ∧
    SetBaseMouseCount w 0 = (w, false) ∧
    SetBaseMouseCount w (-5) = (w, false) ∧
    (w.settingsCreatable = true → w.settingsValueWritable = true →
      (SetBaseMouseCount w 1).2 = true) := by
  refine ⟨?_, ?_, ?_, ?_⟩
  · intro h
    simp [SetBaseMouseCount, h]
  · simp [SetBaseMouseCount]
  · simp [SetBaseMouseCount]
  · intro hc hv
    cases hk : w.settingsKey <;>
      simp [SetBaseMouseCount, RegCreateKeyEx_settings, RegSetValueEx_settings, hc, hv, hk]

/-- C8 at concrete inputs: -3 is rejected without any change, 1 is accepted in
the sample environment. -/
theorem C8_SetBaseMouseCount_validates_witness :
    SetBaseMouseCount largeBaseWorld (-3) = (largeBaseWorld, false) ∧
    (SetBaseMouseCount largeBaseWorld 1).2 = true :=
  ⟨(C8_SetBaseMouseCount_validates largeBaseWorld (-3)).1 (by decide),
   (C8_SetBaseMouseCount_validates largeBaseWorld (-3)).2.2.2 rfl rfl⟩

/-! ## C9: validation in the options dialog -/

/-- C9: for every world and every state of the two check boxes, confirming the
options dialog with a parsed base count below 1 only shows the warning: the
resulting world is the old one with that single `MessageBox` call appended to
the log, so the Run key, the settings key, the timers, `g_lastDisplayState` and
the button swap are unchanged and neither a registry call, nor an evaluation's
`SwapMouseButton`, nor `EndDialog` is issued. -/
theorem C9_dialog_validation_atomic (w : World) (dlg : OptionsDialog)
    (h : dlg.baseCount < 1) :
    OptionsDialogProc_IDOK w dlg = MessageBox w Message.InvalidBaseCount ∧
    issued w (OptionsDialogProc_IDOK w dlg) = [Event.MessageBox Message.InvalidBaseCount] ∧
    (OptionsDialogProc_IDOK w dlg).runKey = w.runKey ∧
    (OptionsDialogProc_IDOK w dlg).settingsKey = w.settingsKey ∧
    (OptionsDialogProc_IDOK w dlg).timers = w.timers ∧
    (OptionsDialogProc_IDOK w dlg).g_lastDisplayState = w.g_lastDisplayState ∧
    (OptionsDialogProc_IDOK w dlg).swapButton = w.swapButton ∧
    (OptionsDialogProc_IDOK w dlg).trayIcon = w.trayIcon := by
  have heq : OptionsDialogProc_IDOK w dlg = MessageBox w Message.InvalidBaseCount := by
    simp [OptionsDialogProc_IDOK, h]
  rw [heq]
  refine ⟨rfl, ?_, rfl, rfl, rfl, rfl, rfl, rfl⟩
  simp [issued, MessageBox]

/-- C9 at a concrete input: base count 0 with both boxes checked, in a state
where monitoring would otherwise apply a change. -/
theorem C9_dialog_validation_atomic_witness :
    OptionsDialogProc_IDOK twoMiceWorld
        { startupChecked := true, autoSwitchChecked := true, baseCount := 0 } =
      MessageBox twoMiceWorld Message.InvalidBaseCount :=
  (C9_dialog_validation_atomic twoMiceWorld
    { startupChecked := true, autoSwitchChecked := true, baseCount := 0 } (by decide)).1

/-! ## C10: counting the mouse devices -/

theorem countMouseLoop_take (l : List RAWINPUTDEVICELIST) (n : Nat) (hn : n ≤ l.length) :
    countMouseLoop l n = ((l.take n).countP isMouse : Int) := by
  induction n with
  | zero => simp [countMouseLoop]
  | succ k ih =>
    have hk : k < l.length := hn
    have ih2 := ih (Nat.le_of_lt hk)
    unfold countMouseLoop at ih2 ⊢
    rw [List.range_succ, List.foldl_append, ih2, List.take_succ, List.countP_append]
    have hget : l.getD k default = l[k] := by
      simp [List.getD, List.getElem?_eq_getElem hk]
    simp only [List.foldl_cons, List.foldl_nil, hget, List.getElem?_eq_getElem hk,
      Option.toList_some, List.countP_cons, List.countP_nil, isMouse]
    by_cases hm : l[k].dwType = RIM_TYPEMOUSE <;> simp [hm]

theorem countMouseLoop_eq_countP (l : List RAWINPUTDEVICELIST) :
    countMouseLoop l l.length = (l.countP isMouse : Int) := by
  rw [countMouseLoop_take l l.length (Nat.le_refl _), List.take_length]

theorem GetCurrentMouseDeviceCount_of_success (w : World)
    (h1 : (GetRawInputDeviceList_size w).1 = 0)
    (h3 : (GetRawInputDeviceList_fill w (GetRawInputDeviceList_size w).2).1 ≠ UINT_ERROR) :
    GetCurrentMouseDeviceCount w = (w.devices.countP isMouse : Int) ∧
    (GetRawInputDeviceList_fill w (GetRawInputDeviceList_size w).2).2 = w.devices ∧
    (GetRawInputDeviceList_size w).2 = w.devices.length := by
  have hs : w.sizeQueryFails = false := by
    cases hq : w.sizeQueryFails
    · rfl
    · simp [GetRawInputDeviceList_size, hq, UINT_ERROR] at h1
  have hsize : GetRawInputDeviceList_size w = (0, w.devices.length) := by
    simp [GetRawInputDeviceList_size, hs]
  rw [hsize] at h3 ⊢
  have hl : w.listQueryFails = false := by
    cases hq : w.listQueryFails
    · rfl
    · simp [GetRawInputDeviceList_fill, hq] at h3
  have hfill : GetRawInputDeviceList_fill w w.devices.length = (w.devices.length, w.devices) := by
    simp [GetRawInputDeviceList_fill, hl]
  rw [hfill] at h3 ⊢
  refine ⟨?_, rfl, rfl⟩
  by_cases hz : w.devices.length = 0
  · have hnil : w.devices = [] := List.length_eq_zero.mp hz
    simp [GetCurrentMouseDeviceCount, hsize, hnil]
  · have h3b : ¬ w.devices.length = UINT_ERROR := h3
    simp [GetCurrentMouseDeviceCount, hsize, hfill, hz, h3b, countMouseLoop_eq_countP]

/-- C10: for every world, `GetCurrentMouseDeviceCount` returns 0 when the size
query fails (returns non-zero), when it reports no device, or when the list
query fails (returns `(UINT)-1`); otherwise it returns the number of entries of
the returned device list whose type is `RIM_TYPEMOUSE`; the result is always
between 0 and the `numDevices` the size query stored. -/
theorem C10_GetCurrentMouseDeviceCount_counts (w : World) :
    ((GetRawInputDeviceList_size w).1 ≠ 0 → GetCurrentMouseDeviceCount w = 0) ∧
    ((GetRawInputDeviceList_size w).2 = 0 → GetCurrentMouseDeviceCount w = 0) ∧
    ((GetRawInputDeviceList_fill w (GetRawInputDeviceList_size w).2).1 = UINT_ERROR →
      GetCurrentMouseDeviceCount w = 0) ∧
    (w.sizeQueryFails = true → GetCurrentMouseDeviceCount w = 0) ∧
    (w.listQueryFails = true → GetCurrentMouseDeviceCount w = 0) ∧
    ((GetRawInputDeviceList_size w).1 = 0 → (GetRawInputDeviceList_size w).2 ≠ 0 →
      (GetRawInputDeviceList_fill w (GetRawInputDeviceList_size w).2).1 ≠ UINT_ERROR →
      GetCurrentMouseDeviceCount w =
        ((GetRawInputDeviceList_fill w (GetRawInputDeviceList_size w).2).2.countP isMouse : Int)) ∧
    0 ≤ GetCurrentMouseDeviceCount w ∧
    GetCurrentMouseDeviceCount w ≤ ((GetRawInputDeviceList_size w).2 : Int) := by
  have hA : (GetRawInputDeviceList_size w).1 ≠ 0 → GetCurrentMouseDeviceCount w = 0 := by
    intro h
    simp only [GetCurrentMouseDeviceCount]
    rw [if_pos h]
  have hB : (GetRawInputDeviceList_size w).2 = 0 → GetCurrentMouseDeviceCount w = 0 := by
    intro h
    simp [GetCurrentMouseDeviceCount, h]
  have hC : (GetRawInputDeviceList_fill w (GetRawInputDeviceList_size w).2).1 = UINT_ERROR →
      GetCurrentMouseDeviceCount w = 0 := by
    intro h
    simp [GetCurrentMouseDeviceCount, h]
  have hD : w.sizeQueryFails = true → GetCurrentMouseDeviceCount w = 0 := by
    intro h
    apply hA
    simp [GetRawInputDeviceList_size, h, UINT_ERROR]
  have hE : w.listQueryFails = true → GetCurrentMouseDeviceCount w = 0 := by
    intro h
    apply hC
    simp [GetRawInputDeviceList_fill, h]
  have hF : (GetRawInputDeviceList_size w).1 = 0 →
      (GetRawInputDeviceList_fill w (GetRawInputDeviceList_size w).2).1 ≠ UINT_ERROR →
      GetCurrentMouseDeviceCount w =
        ((GetRawInputDeviceList_fill w (GetRawInputDeviceList_size w).2).2.countP isMouse : Int) := by
    intro h1 h3
    obtain ⟨e1, e2, _⟩ := GetCurrentMouseDeviceCount_of_success w h1 h3
    rw [e1, e2]
  refine ⟨hA, hB, hC, hD, hE, fun h1 _ h3 => hF h1 h3, ?_, ?_⟩
  · by_cases h1 : (GetRawInputDeviceList_size w).1 = 0
    · by_cases h3 : (GetRawInputDeviceList_fill w (GetRawInputDeviceList_size w).2).1 = UINT_ERROR
      · rw [hC h3]
      · rw [(GetCurrentMouseDeviceCount_of_success w h1 h3).1]
        exact Int.natCast_nonneg _
    · rw [hA h1]
  · by_cases h1 : (GetRawInputDeviceList_size w).1 = 0
    · by_cases h3 : (GetRawInputDeviceList_fill w (GetRawInputDeviceList_size w).2).1 = UINT_ERROR
      · rw [hC h3]
        exact Int.natCast_nonneg _
      · obtain ⟨e1, _, e3⟩ := GetCurrentMouseDeviceCount_of_success w h1 h3
        rw [e1, e3]
        exact_mod_cast List.countP_le_length isMouse
    · rw [hA h1]
      exact Int.natCast_nonneg _

/-- C10 at a concrete environment: a mouse and a keyboard attached, both
queries succeed, the count is 1 of 2 devices. -/
theorem C10_GetCurrentMouseDeviceCount_counts_witness :
    (GetRawInputDeviceList_size sampleWorld).2 = 2 ∧
    GetCurrentMouseDeviceCount sampleWorld =
      ((GetRawInputDeviceList_fill sampleWorld
        (GetRawInputDeviceList_size sampleWorld).2).2.countP isMouse : Int) ∧
    GetCurrentMouseDeviceCount sampleWorld = 1 :=
  ⟨by decide,
   (C10_GetCurrentMouseDeviceCount_counts sampleWorld).2.2.2.2.2.1 (by decide) (by decide)
     (by decide),
   by decide⟩

/-! ## C11: manual toggle while monitoring -/

theorem FlipMouseOrientation_sameInputs (w : World) :
    SameInputs w (FlipMouseOrientation w) := ⟨rfl, rfl, rfl, rfl, rfl⟩

/-- C11 as stated fails: with an external mouse attached, remembered state true
and handedness LeftHanded, a manual toggle followed by one evaluation leaves
the handedness RightHanded; the handedness held before the toggle is not
restored. -/
theorem C11_counterexample_toggle_not_reverted :
    IsExternalMouseConnected externalAttachedWorld = externalAttachedWorld.g_lastDisplayState ∧
    currentHandedness externalAttachedWorld = Handedness.LeftHanded ∧
    currentHandedness (CheckAndApplyAutoSwitch (FlipMouseOrientation externalAttachedWorld)) =
      Handedness.RightHanded := by
  decide

/-- C11 amended: in every state whose remembered external state equals the
detected one, a manual toggle followed by one evaluation with unchanged
devices and base count keeps the toggled handedness: the evaluation changes
nothing and issues no call, on the direct call and on the path through the
tray double-click and a timer tick alike.  The toggle is overridden only by an
evaluation at which the detected external state differs from the remembered
one, which then sets the swap flag to the detected state. -/
theorem C11_manual_toggle_survives_tick (w : World)
    (h : IsExternalMouseConnected w = w.g_lastDisplayState) :
    CheckAndApplyAutoSwitch (FlipMouseOrientation w) = FlipMouseOrientation w ∧
    issued (FlipMouseOrientation w) (CheckAndApplyAutoSwitch (FlipMouseOrientation w)) = [] ∧
    (CheckAndApplyAutoSwitch (FlipMouseOrientation w)).swapButton = (!w.swapButton) ∧
    currentHandedness (CheckAndApplyAutoSwitch (FlipMouseOrientation w)) ≠ currentHandedness w ∧
    tick (WndProc w w.g_hwndMain (WindowMessage.WM_TRAYICON WM_LBUTTONDBLCLK)) w.devices =
      WndProc w w.g_hwndMain (WindowMessage.WM_TRAYICON WM_LBUTTONDBLCLK) ∧
    (∀ devs : List RAWINPUTDEVICELIST,
      IsExternalMouseConnected (setDevices w devs) ≠ w.g_lastDisplayState →
      (tick (FlipMouseOrientation w) devs).swapButton =
        IsExternalMouseConnected (setDevices w devs)) := by
  have hfix : CheckAndApplyAutoSwitch (FlipMouseOrientation w) = FlipMouseOrientation w := by
    apply CheckAndApplyAutoSwitch_of_eq
    rw [← IsExternalMouseConnected_congr (FlipMouseOrientation_sameInputs w)]
    exact h
  refine ⟨hfix, ?_, ?_, ?_, ?_, ?_⟩
  · rw [hfix, issued_self]
  · rw [hfix]; rfl
  · rw [hfix]
    cases hs : w.swapButton <;>
      simp [currentHandedness, GetCurrentMouseState, FlipMouseOrientation, SwapMouseButton, hs]
  · rw [tick_eq]
    apply CheckAndApplyAutoSwitch_of_eq
    have hs : SameInputs w
        (setDevices (WndProc w w.g_hwndMain (WindowMessage.WM_TRAYICON WM_LBUTTONDBLCLK))
          w.devices) :=
      ⟨rfl, rfl, rfl, rfl, rfl⟩
    rw [← IsExternalMouseConnected_congr hs]
    exact h
  · intro devs hne
    rw [tick_eq]
    have hs : SameInputs (setDevices w devs) (setDevices (FlipMouseOrientation w) devs) :=
      ⟨rfl, rfl, rfl, rfl, rfl⟩
    rw [CheckAndApplyAutoSwitch_swapButton_of_ne, ← IsExternalMouseConnected_congr hs]
    rw [← IsExternalMouseConnected_congr hs]
    exact hne

/-- C11 amended, at a concrete state: external mouse attached, remembered state
true, left-handed; after toggle and evaluation the buttons are not swapped. -/
theorem C11_manual_toggle_survives_tick_witness :
    IsExternalMouseConnected externalAttachedWorld = externalAttachedWorld.g_lastDisplayState ∧
    (CheckAndApplyAutoSwitch (FlipMouseOrientation externalAttachedWorld)).swapButton = false :=
  ⟨by decide, (C11_manual_toggle_survives_tick externalAttachedWorld (by decide)).2.2.1⟩

/-! ## C12: base count through the store -/

theorem dwordOfBytes_dwordBytes (v : Nat) (hv : v < 2 ^ 32) :
    dwordOfBytes (dwordBytes v) = v := by
  simp only [dwordOfBytes, dwordBytes, List.getD_cons_zero, List.getD_cons_succ]
  omega

theorem toDWORD_of_count (n : Int) (h1 : 1 ≤ n) (h2 : n ≤ 2 ^ 31 - 1) :
    toDWORD n < 2 ^ 31 ∧ 0 < toDWORD n ∧ ((toDWORD n : Nat) : Int) = n := by
  unfold toDWORD
  have hmod : n % 2 ^ 32 = n := Int.emod_eq_of_lt (by omega) (by omega)
  rw [hmod]
  omega

theorem toInt_toDWORD (n : Int) (h1 : 1 ≤ n) (h2 : n ≤ 2 ^ 31 - 1) :
    toInt (toDWORD n) = n := by
  obtain ⟨hlt, _, hcast⟩ := toDWORD_of_count n h1 h2
  have hm : toDWORD n % 2 ^ 32 = toDWORD n := Nat.mod_eq_of_lt (by omega)
  unfold toInt
  rw [hm, if_pos hlt, hcast]

/-- What a successful `SetBaseMouseCount` leaves in the settings key. -/
theorem SetBaseMouseCount_of_success (w : World) (n : Int)
    (hok : (SetBaseMouseCount w n).2 = true) :
    ∃ key : SettingsKey,
      (SetBaseMouseCount w n).1.settingsKey = some key ∧
      key.baseMouseCount = some { dwType := REG_DWORD, data := dwordBytes (toDWORD n) } ∧
      key.autoSwitch = storedAutoSwitch w ∧
      (SetBaseMouseCount w n).1.settingsReadable = w.settingsReadable := by
  by_cases hn : n < 1
  · simp [SetBaseMouseCount, hn] at hok
  · cases hc : w.settingsCreatable
    · simp [SetBaseMouseCount, hn, RegCreateKeyEx_settings, hc] at hok
    · cases hv : w.settingsValueWritable
      · cases hk : w.settingsKey <;>
          simp [SetBaseMouseCount, hn, RegCreateKeyEx_settings, RegSetValueEx_settings,
            hc, hv, hk] at hok
      · cases hk : w.settingsKey with
        | none =>
          exact ⟨{ autoSwitch := none,
                   baseMouseCount := some { dwType := REG_DWORD, data := dwordBytes (toDWORD n) } },
            by simp [SetBaseMouseCount, hn, RegCreateKeyEx_settings, RegSetValueEx_settings,
                 hc, hv, hk],
            rfl, by simp [storedAutoSwitch, hk],
            by simp [SetBaseMouseCount, hn, RegCreateKeyEx_settings, RegSetValueEx_settings,
                 hc, hv, hk]⟩
        | some key =>
          exact ⟨{ key with
                   baseMouseCount := some { dwType := REG_DWORD, data := dwordBytes (toDWORD n) } },
            by simp [SetBaseMouseCount, hn, RegCreateKeyEx_settings, RegSetValueEx_settings,
                 hc, hv, hk],
            rfl, by simp [storedAutoSwitch, hk],
            by simp [SetBaseMouseCount, hn, RegCreateKeyEx_settings, RegSetValueEx_settings,
                 hc, hv, hk]⟩

theorem IsAutoSwitchEnabled_of_stored {a b : World}
    (hr : a.settingsReadable = b.settingsReadable)
    (hs : storedAutoSwitch a = storedAutoSwitch b) :
    IsAutoSwitchEnabled a = IsAutoSwitchEnabled b := by
  have key : ∀ x : World, IsAutoSwitchEnabled x =
      if x.settingsReadable then
        (match RegQueryValueEx (storedAutoSwitch x) (dwordBytes 1) with
         | (status, type, buffer) =>
           if status = LSTATUS.ERROR_SUCCESS then
             if type = REG_DWORD then decide (dwordOfBytes buffer ≠ 0) else true
           else true)
      else true := by
    intro x
    cases hx : x.settingsReadable <;> cases hk : x.settingsKey <;>
      simp [IsAutoSwitchEnabled, RegOpenKeyEx_settings_read, storedAutoSwitch, hx, hk,
        RegQueryValueEx]
  rw [key a, key b, hr, hs]

/-- C12 as stated fails: in an environment where the settings key can be
created and written but not opened for reading, `SetBaseMouseCount(5)` returns
true and the following `GetBaseMouseCount()` returns the default 1. -/
theorem C12_counterexample_unreadable_key :
    (SetBaseMouseCount writeOnlyWorld 5).2 = true ∧
    GetBaseMouseCount (SetBaseMouseCount writeOnlyWorld 5).1 = 1 ∧
    GetBaseMouseCount (SetBaseMouseCount writeOnlyWorld 5).1 ≠ 5 := by
  decide

/-- C12 amended: for every world and every `int` n with 1 <= n <= 2^31-1, if
`SetBaseMouseCount(n)` returns true then, provided the settings key can be
opened for reading, the following `GetBaseMouseCount()` returns exactly n; in
any case the stored auto-switch value and the result of `IsAutoSwitchEnabled`
are the same as before the write. -/
theorem C12_base_count_round_trip (w : World) (n : Int) (h1 : 1 ≤ n) (h2 : n ≤ 2 ^ 31 - 1)
    (hok : (SetBaseMouseCount w n).2 = true) :
    (w.settingsReadable = true → GetBaseMouseCount (SetBaseMouseCount w n).1 = n) ∧
    storedAutoSwitch (SetBaseMouseCount w n).1 = storedAutoSwitch w ∧
    IsAutoSwitchEnabled (SetBaseMouseCount w n).1 = IsAutoSwitchEnabled w := by
  obtain ⟨key, hkey, hbase, hauto, hread⟩ := SetBaseMouseCount_of_success w n hok
  obtain ⟨hlt, hpos, _⟩ := toDWORD_of_count n h1 h2
  have hstored : storedAutoSwitch (SetBaseMouseCount w n).1 = storedAutoSwitch w := by
    simp only [storedAutoSwitch, hkey, Option.some_bind, hauto]
  refine ⟨?_, hstored, IsAutoSwitchEnabled_of_stored hread hstored⟩
  intro hr
  have hround : dwordOfBytes (dwordBytes (toDWORD n)) = toDWORD n :=
    dwordOfBytes_dwordBytes _ (by omega)
  have hq : RegQueryValueEx
      (some { dwType := REG_DWORD, data := dwordBytes (toDWORD n) }) (dwordBytes 1) =
      (LSTATUS.ERROR_SUCCESS, REG_DWORD, dwordBytes (toDWORD n)) := by
    simp [RegQueryValueEx, dwordBytes]
  simp only [GetBaseMouseCount, RegOpenKeyEx_settings_read, hread, hr, if_true, hkey, hbase, hq,
    hround]
  rw [if_pos ⟨trivial, hpos⟩]
  exact toInt_toDWORD n h1 h2

/-- C12 amended, at a concrete input: writing 3 into the sample environment
(no settings key before) and reading it back gives 3. -/
theorem C12_base_count_round_trip_witness :
    (SetBaseMouseCount sampleWorld 3).2 = true ∧
    GetBaseMouseCount (SetBaseMouseCount sampleWorld 3).1 = 3 :=
  ⟨by decide,
   (C12_base_count_round_trip sampleWorld 3 (by decide) (by decide) (by decide)).1 (by decide)⟩

end Primary
